import Mathlib

/-!
Verification development for the RotaryDial firmware (src/main.cpp).

Temperatures are embedded as exact rationals (ℚ) standing for the C `float`
values; machine times (`millis()`) as ℕ with truncated subtraction mirroring
unsigned arithmetic in the non-wrapping regime; the encoder accumulator and
step counts as ℤ, with `Int.tdiv`/`Int.tmod` mirroring C's truncating `/`
and `%`.  The global mutable state of main.cpp is bundled into `DialState`,
and each input/network handler becomes a state-transition function that also
returns the list of HTTP requests it issues to the remote FreeSleep devices.
-/

namespace RotaryDial

/-- TEMP_MIN from config.h (10.0f °C). -/
def TEMP_MIN : ℚ := 10

/-- TEMP_MAX from config.h (35.0f °C). -/
def TEMP_MAX : ℚ := 35

/-- TEMP_DEFAULT from config.h (21.0f °C). -/
def TEMP_DEFAULT : ℚ := 21

/-- FREESLEEP_DEBOUNCE_MS from main.cpp (500). -/
def FREESLEEP_DEBOUNCE_MS : ℕ := 500

/-- SYNC_COOLDOWN_AFTER_CHANGE_MS from main.cpp (1000). -/
def SYNC_COOLDOWN_AFTER_CHANGE_MS : ℕ := 1000

/-- FREESLEEP_SYNC_INTERVAL_MS from main.cpp (2000). -/
def FREESLEEP_SYNC_INTERVAL_MS : ℕ := 2000

/-- MAX_SYNC_INTERVAL_MS from main.cpp (60000). -/
def MAX_SYNC_INTERVAL_MS : ℕ := 60000

/-- C `round` (round half away from zero), as used on `float` in main.cpp. -/
def cround (x : ℚ) : ℤ := if x < 0 then -⌊-x + 1/2⌋ else ⌊x + 1/2⌋

/-- celsiusToFahrenheit from main.cpp. -/
def celsiusToFahrenheit (celsius : ℚ) : ℚ := celsius * 9 / 5 + 32

/-- fahrenheitToCelsius from main.cpp. -/
def fahrenheitToCelsius (fahrenheit : ℚ) : ℚ := (fahrenheit - 32) * 5 / 9

/-- The `if (t < TEMP_MIN) ... if (t > TEMP_MAX) ...` clamp pattern repeated in
every temperature-writing handler of main.cpp. -/
def clampTemp (t : ℚ) : ℚ := if t < TEMP_MIN then TEMP_MIN else if t > TEMP_MAX then TEMP_MAX else t

/-- mapFloat from main.cpp. -/
def mapFloat (x in_min in_max out_min out_max : ℚ) : ℚ :=
(x - in_min) * (out_max - out_min) / (in_max - in_min) + out_min

/-- The two controller zones (bedTargetIP / pillowTargetIP). -/
inductive Zone where
| bed
| pillow
deriving DecidableEq, Repr

/-- The JSON side key sent to the FreeSleep API. -/
inductive Side where
| left
| right
deriving DecidableEq, Repr

/-- One HTTP request issued to a zone's FreeSleep endpoint. -/
inductive Request where
| statusGet (target : Zone) (sd : Side)
| tempPost (target : Zone) (sd : Side) (tempF : ℤ)
| powerPost (target : Zone) (sd : Side) (isOn : Bool)
deriving DecidableEq, Repr

/-- The side key carried by a request. -/
def Request.sd : Request → Side
| .statusGet _ sd => sd
| .tempPost _ sd _ => sd
| .powerPost _ sd _ => sd

/-- The global mutable state of main.cpp relevant to setpoints and syncing. -/
structure DialState where
  bedSetpoint : ℚ
  pillowSetpoint : ℚ
  bedPowerOn : Bool
  pillowPowerOn : Bool
  pillowModeActive : Bool
  bedSideRight : Bool
  useFahrenheit : Bool
  lastSetpointChangeTime : ℕ
  pendingFreeSleepUpdate : Bool
  currentSyncInterval : ℕ
  consecutiveFailures : ℕ
  encoderAccumulator : ℤ
deriving DecidableEq, Repr

/-- The initial values of the globals in main.cpp. -/
def initialState : DialState where
  bedSetpoint := TEMP_DEFAULT
  pillowSetpoint := TEMP_DEFAULT
  bedPowerOn := true
  pillowPowerOn := true
  pillowModeActive := false
  bedSideRight := false
  useFahrenheit := false
  lastSetpointChangeTime := 0
  pendingFreeSleepUpdate := false
  currentSyncInterval := FREESLEEP_SYNC_INTERVAL_MS
  consecutiveFailures := 0
  encoderAccumulator := 0

/-- getActiveSetpoint from main.cpp (read side of the aliasing reference). -/
def getActiveSetpoint (s : DialState) : ℚ :=
if s.pillowModeActive then s.pillowSetpoint else s.bedSetpoint

/-- Writing through the reference returned by getActiveSetpoint. -/
def setActiveSetpoint (s : DialState) (t : ℚ) : DialState :=
if s.pillowModeActive then { s with pillowSetpoint := t } else { s with bedSetpoint := t }

/-- The zone the active-setpoint reference resolves to. -/
def activeZone (s : DialState) : Zone := if s.pillowModeActive then .pillow else .bed

/-- The side key `bedSideRight ? "right" : "left"` computed at each call site. -/
def sideOf (s : DialState) : Side := if s.bedSideRight then .right else .left

/-- setFreeSleepTemperature from main.cpp: converts the Celsius setpoint to
Fahrenheit, rounds to integer, clamps to [55, 110] and POSTs it. -/
def setFreeSleepTemperature (target : Zone) (sd : Side) (tempCelsius : ℚ) : Request :=
Request.tempPost target sd
  (let tempF := cround (celsiusToFahrenheit tempCelsius)
   if tempF < 55 then 55 else if tempF > 110 then 110 else tempF)

/-- The step size chosen in handleEncoderInput: 1 °F (5/9 °C) in Fahrenheit
mode, 0.5 °C otherwise. -/
def encoderStepSize (useF : Bool) : ℚ := if useF then 5/9 else 1/2

/-- The display rounding after clamping in handleEncoderInput: in Fahrenheit
mode round-trip through whole degrees Fahrenheit, otherwise round to the
nearest 0.5 °C. -/
def roundToDisplay (useF : Bool) (t : ℚ) : ℚ :=
if useF then fahrenheitToCelsius (cround (celsiusToFahrenheit t))
else (cround (t * 2) : ℚ) / 2

/-- The temperature-adjustment body of handleEncoderInput once `steps` detents
have been consumed from the accumulator (main.cpp lines 652-691): step, clamp,
round for display, and only on an actual change write the setpoint and arm the
debounced FreeSleep push. -/
def rotaryTempAdjust (s : DialState) (steps : ℤ) (now : ℕ) : DialState :=
let newTemp := clampTemp (getActiveSetpoint s + steps * encoderStepSize s.useFahrenheit)
let newTemp := roundToDisplay s.useFahrenheit newTemp
if newTemp ≠ getActiveSetpoint s then
  { setActiveSetpoint s newTemp with lastSetpointChangeTime := now, pendingFreeSleepUpdate := true }
else s

/-- One raw encoder delta fed to the accumulator logic shared by
handleEncoderInput, handleEncoderInSettings and handleEncoderInIPEditor:
returns the emitted step count and the retained accumulator.  `diff == 0`
performs nothing; otherwise the delta is accumulated and, once
`abs(accumulator) >= 4`, `steps = accumulator / 4` is consumed and the
truncating remainder `accumulator % 4` retained. -/
def consumeEncoderDelta (acc delta : ℤ) : ℤ × ℤ :=
if delta = 0 then (0, acc)
else
  let a := acc + delta
  if 4 ≤ |a| then (Int.tdiv a 4, Int.tmod a 4) else (0, a)

/-- Folding a whole sequence of raw deltas through the accumulator, returning
the total emitted steps and the final accumulator. -/
def consumeEncoderDeltas (acc : ℤ) : List ℤ → ℤ × ℤ
| [] => (0, acc)
| d :: ds =>
  let p := consumeEncoderDelta acc d
  let q := consumeEncoderDeltas p.2 ds
  (p.1 + q.1, q.2)

/-- handleEncoderInput on the main temperature screen (main.cpp lines
632-707), given one raw delta `delta = newPosition - lastEncoderPosition`. -/
def handleEncoderInput (s : DialState) (delta : ℤ) (now : ℕ) : DialState :=
if delta = 0 then s
else
  let a := s.encoderAccumulator + delta
  if 4 ≤ |a| then
    rotaryTempAdjust { s with encoderAccumulator := Int.tmod a 4 } (Int.tdiv a 4) now
  else { s with encoderAccumulator := a }

/-- The encoder button branch of handleEncoderInput: reset the active setpoint
to TEMP_DEFAULT and arm the debounced FreeSleep push. -/
def resetToDefault (s : DialState) (now : ℕ) : DialState :=
{ setActiveSetpoint s TEMP_DEFAULT with lastSetpointChangeTime := now, pendingFreeSleepUpdate := true }

/-- The angle-to-temperature mapping of the arc-touch branch of
handleTouchInput (main.cpp lines 791-813): angles in [165, 360] map linearly,
angles in [0, 15] wrap around by adding 360, anything else is ignored. -/
def arcAngleToTemp (angle : ℚ) : Option ℚ :=
if 165 ≤ angle ∧ angle ≤ 360 then some (mapFloat angle 165 375 TEMP_MIN TEMP_MAX)
else if 0 ≤ angle ∧ angle ≤ 15 then some (mapFloat (angle + 360) 165 375 TEMP_MIN TEMP_MAX)
else none

/-- The arc-touch branch of handleTouchInput: clamp, round to the nearest
0.5 °C, write the active setpoint and arm the debounced FreeSleep push. -/
def handleTouchArc (s : DialState) (angle : ℚ) (now : ℕ) : DialState :=
match arcAngleToTemp angle with
| none => s
| some newTemp =>
  let t := clampTemp newTemp
  { setActiveSetpoint s ((cround (t * 2) : ℚ) / 2) with
      lastSetpointChangeTime := now, pendingFreeSleepUpdate := true }

/-- The parse outcome of the body of a POST to one of the local control
surface's temperature endpoints. -/
inductive Body where
| missing
| badJson
| noSetpoint
| withSetpoint (t : ℚ)
deriving DecidableEq, Repr

/-- handleAPISetTemperature (POST /api/temperature): HTTP status, new state,
and FreeSleep requests issued.  Note: it writes the active setpoint but never
arms the debounced FreeSleep push nor issues a request. -/
def handleAPISetTemperature (s : DialState) (b : Body) : ℕ × DialState × List Request :=
match b with
| .missing => (400, s, [])
| .badJson => (400, s, [])
| .noSetpoint => (400, s, [])
| .withSetpoint t => (200, setActiveSetpoint s (clampTemp t), [])

/-- handleAPISetBedTemperature (POST /api/bed): clamps, writes bedSetpoint and
immediately POSTs to the bed controller with the hard-coded side "left". -/
def handleAPISetBedTemperature (s : DialState) (b : Body) : ℕ × DialState × List Request :=
match b with
| .missing => (400, s, [])
| .badJson => (400, s, [])
| .noSetpoint => (400, s, [])
| .withSetpoint t =>
  let newTemp := clampTemp t
  (200, { s with bedSetpoint := newTemp },
   [setFreeSleepTemperature .bed .left newTemp])

/-- handleAPISetPillowTemperature (POST /api/pillow): clamps, writes
pillowSetpoint and immediately POSTs to the pillow controller with the
hard-coded side "right". -/
def handleAPISetPillowTemperature (s : DialState) (b : Body) : ℕ × DialState × List Request :=
match b with
| .missing => (400, s, [])
| .badJson => (400, s, [])
| .noSetpoint => (400, s, [])
| .withSetpoint t =>
  let newTemp := clampTemp t
  (200, { s with pillowSetpoint := newTemp },
   [setFreeSleepTemperature .pillow .right newTemp])

/-- toggleActivePower from main.cpp: flip the active zone's power flag and
POST the new state with the side derived from bedSideRight. -/
def toggleActivePower (s : DialState) : DialState × List Request :=
if s.pillowModeActive then
  ({ s with pillowPowerOn := !s.pillowPowerOn },
   [Request.powerPost .pillow (sideOf s) (!s.pillowPowerOn)])
else
  ({ s with bedPowerOn := !s.bedPowerOn },
   [Request.powerPost .bed (sideOf s) (!s.bedPowerOn)])

/-- A fetch outcome of fetchFreeSleepTemperature for one zone: `none` on any
failure (unreachable, non-200, unparseable, missing field), otherwise the
reported `targetTemperatureF` and `isOn`. -/
abbrev Fetch := Option (ℚ × Bool)

/-- syncTemperaturesFromFreeSleep from main.cpp (startup sync): each zone
whose fetch succeeds gets the fetched temperature (converted to Celsius,
unclamped) and power state unconditionally. -/
def syncTemperaturesFromFreeSleep (s : DialState) (bedFetch pillowFetch : Fetch) :
    DialState × List Request :=
let s1 := match bedFetch with
  | some (tempF, isOn) =>
    { s with bedSetpoint := fahrenheitToCelsius tempF, bedPowerOn := isOn }
  | none => s
let s2 := match pillowFetch with
  | some (tempF, isOn) =>
    { s1 with pillowSetpoint := fahrenheitToCelsius tempF, pillowPowerOn := isOn }
  | none => s1
(s2, [Request.statusGet .bed (sideOf s), Request.statusGet .pillow (sideOf s)])

/-- The bed-zone merge step of syncFromFreeSleep (main.cpp lines 2110-2122):
on a successful fetch the power state is taken over, and the temperature only
when the cooldown has lapsed and the difference exceeds 0.1 degC (unclamped). -/
def syncMergeBed (s : DialState) (f : Fetch) (allowTempSync : Bool) : DialState :=
match f with
| some (tempF, isOn) =>
  let temp := fahrenheitToCelsius tempF
  let sB := if s.bedPowerOn ≠ isOn then { s with bedPowerOn := isOn } else s
  if allowTempSync ∧ 1/10 < |sB.bedSetpoint - temp| then { sB with bedSetpoint := temp } else sB
| none => s

/-- The pillow-zone merge step of syncFromFreeSleep (main.cpp lines 2124-2136). -/
def syncMergePillow (s : DialState) (f : Fetch) (allowTempSync : Bool) : DialState :=
match f with
| some (tempF, isOn) =>
  let temp := fahrenheitToCelsius tempF
  let sP := if s.pillowPowerOn ≠ isOn then { s with pillowPowerOn := isOn } else s
  if allowTempSync ∧ 1/10 < |sP.pillowSetpoint - temp| then { sP with pillowSetpoint := temp } else sP
| none => s

/-- The backoff step of syncFromFreeSleep (main.cpp lines 2138-2152): a cycle
with at least one success resets counter and interval (when a failure streak
was in progress); a fully failed cycle counts the failure and doubles the
interval up to MAX_SYNC_INTERVAL_MS. -/
def syncApplyBackoff (s : DialState) (anySuccess : Bool) : DialState :=
if anySuccess then
  if 0 < s.consecutiveFailures then
    { s with consecutiveFailures := 0, currentSyncInterval := FREESLEEP_SYNC_INTERVAL_MS }
  else s
else
  { s with consecutiveFailures := s.consecutiveFailures + 1,
           currentSyncInterval := min (s.currentSyncInterval * 2) MAX_SYNC_INTERVAL_MS }

/-- syncFromFreeSleep from main.cpp (periodic poll): computes the user-edit
cooldown once, merges each zone's fetch, then applies the backoff policy. -/
def syncFromFreeSleep (s : DialState) (bedFetch pillowFetch : Fetch) (now : ℕ) :
    DialState × List Request :=
let allowTempSync : Bool :=
  decide (SYNC_COOLDOWN_AFTER_CHANGE_MS < now - s.lastSetpointChangeTime)
(syncApplyBackoff
   (syncMergePillow (syncMergeBed s bedFetch allowTempSync) pillowFetch allowTempSync)
   (bedFetch.isSome || pillowFetch.isSome),
 [Request.statusGet .bed (sideOf s), Request.statusGet .pillow (sideOf s)])

/-- The debounced-push branch of loop() (main.cpp lines 277-285): once a push
is pending and FREESLEEP_DEBOUNCE_MS have elapsed since the last edit, clear
the flag and POST the setpoint of whichever zone is active at flush time. -/
def loopFlush (s : DialState) (now : ℕ) : DialState × List Request :=
if s.pendingFreeSleepUpdate ∧ FREESLEEP_DEBOUNCE_MS ≤ now - s.lastSetpointChangeTime then
  let s1 := { s with pendingFreeSleepUpdate := false }
  if s.pillowModeActive then
    (s1, [setFreeSleepTemperature .pillow (sideOf s) s.pillowSetpoint])
  else
    (s1, [setFreeSleepTemperature .bed (sideOf s) s.bedSetpoint])
else (s, [])

/-- Every mutation source the claims range over, with its external inputs
(raw encoder delta, touch angle, request body, fetch outcomes, clock). -/
inductive Op where
| encoderDelta (delta : ℤ) (now : ℕ)
| resetButton (now : ℕ)
| arcTouch (angle : ℚ) (now : ℕ)
| apiSetTemperature (b : Body)
| apiSetBedTemperature (b : Body)
| apiSetPillowTemperature (b : Body)
| selectZone (pillow : Bool)
| togglePower
| startupSync (bedFetch pillowFetch : Fetch)
| pollSync (bedFetch pillowFetch : Fetch) (now : ℕ)
| flushTick (now : ℕ)
deriving DecidableEq, Repr

/-- The state transition and issued requests of one operation. -/
def applyOp (s : DialState) (op : Op) : DialState × List Request :=
match op with
| .encoderDelta delta now => (handleEncoderInput s delta now, [])
| .resetButton now => (resetToDefault s now, [])
| .arcTouch angle now => (handleTouchArc s angle now, [])
| .apiSetTemperature b => (handleAPISetTemperature s b).2
| .apiSetBedTemperature b => (handleAPISetBedTemperature s b).2
| .apiSetPillowTemperature b => (handleAPISetPillowTemperature s b).2
| .selectZone pillow => ({ s with pillowModeActive := pillow }, [])
| .togglePower => toggleActivePower s
| .startupSync bf pf => syncTemperaturesFromFreeSleep s bf pf
| .pollSync bf pf now => syncFromFreeSleep s bf pf now
| .flushTick now => loopFlush s now

/-- Running a sequence of operations, accumulating all issued requests. -/
def applyOps (s : DialState) : List Op → DialState × List Request
| [] => (s, [])
| op :: ops =>
  let p := applyOp s op
  let q := applyOps p.1 ops
  (q.1, p.2 ++ q.2)

/-- handleEncoderInIPEditor's octet arithmetic (main.cpp lines 1578-1585):
`int newValue = octet + steps`, then the two normalization `if`s with C's
truncating `%`. -/
def ipOctetAdjust (v : ℕ) (steps : ℤ) : ℕ :=
let newValue : ℤ := (v : ℤ) + steps
let n1 : ℤ := if newValue < 0 then 256 + Int.tmod newValue 256 else newValue
let n2 : ℤ := if n1 > 255 then Int.tmod n1 256 else n1
n2.toNat

/-- One raw encoder delta processed by handleEncoderInIPEditor: the same
accumulator logic as the main screen, applied to the edited octet. -/
def handleEncoderInIPEditor (v : ℕ) (acc delta : ℤ) : ℕ × ℤ :=
if delta = 0 then (v, acc)
else
  let a := acc + delta
  if 4 ≤ |a| then (ipOctetAdjust v (Int.tdiv a 4), Int.tmod a 4) else (v, a)

/-- Feeding a sequence of raw deltas to the IP editor's encoder handler. -/
def runIPEditor (v : ℕ) (acc : ℤ) : List ℤ → ℕ × ℤ
| [] => (v, acc)
| d :: ds =>
  let p := handleEncoderInIPEditor v acc d
  runIPEditor p.1 p.2 ds

/-- One poll cycle in which both zones fail to respond. -/
def pollFailCycle (s : DialState) : DialState := (syncFromFreeSleep s none none 0).1

/-- The side key each operation's requests are supposed to carry: the two
per-zone control-surface handlers hard-code "left"/"right"; every other
network-talking path derives the side from the bedSideRight flag. -/
def expectedSide (s : DialState) : Op → Side
| .apiSetBedTemperature _ => .left
| .apiSetPillowTemperature _ => .right
| _ => sideOf s

/-- The spec's range invariant: both zone setpoints lie in
[TEMP_MIN, TEMP_MAX]. -/
def rangeInv (s : DialState) : Prop :=
TEMP_MIN ≤ s.bedSetpoint ∧ s.bedSetpoint ≤ TEMP_MAX ∧
TEMP_MIN ≤ s.pillowSetpoint ∧ s.pillowSetpoint ≤ TEMP_MAX

instance (s : DialState) : Decidable (rangeInv s) := by
  unfold rangeInv; infer_instance

/-- Whether a fetch outcome reports a temperature whose Celsius conversion
lies inside [TEMP_MIN, TEMP_MAX] (failed fetches count as harmless). -/
def fetchOkB : Fetch → Bool
| none => true
| some (tempF, _) =>
  decide (TEMP_MIN ≤ fahrenheitToCelsius tempF ∧ fahrenheitToCelsius tempF ≤ TEMP_MAX)

/-- Whether an operation's remote fetches (if any) are all in range. -/
def opFetchOk : Op → Bool
| .startupSync bf pf => fetchOkB bf && fetchOkB pf
| .pollSync bf pf _ => fetchOkB bf && fetchOkB pf
| _ => true

section TmodFacts

/-- C's truncating remainder negates with its dividend. -/
theorem tmod_neg_left (a b : ℤ) : Int.tmod (-a) b = -Int.tmod a b := by
  have h1 := Int.tdiv_add_tmod (-a) b
  have h2 := Int.tdiv_add_tmod a b
  rw [Int.neg_tdiv] at h1
  nlinarith [h1, h2]

/-- The truncating remainder is strictly between `-b` and `b`. -/
theorem tmod_bounds (a : ℤ) {b : ℤ} (hb : 0 < b) :
    -b < Int.tmod a b ∧ Int.tmod a b < b := by
  rcases le_or_lt 0 a with ha | ha
  · constructor
    · have := Int.tmod_nonneg b ha
      omega
    · exact Int.tmod_lt_of_pos a hb
  · have hrw : Int.tmod a b = -Int.tmod (-a) b := by
      have := tmod_neg_left (-a) b
      simpa using this
    have h0 : (0:ℤ) ≤ -a := by omega
    have hnn := Int.tmod_nonneg b h0
    have hlt := Int.tmod_lt_of_pos (-a) hb
    omega

/-- The truncating remainder keeps the dividend's sign (or vanishes). -/
theorem tmod_sign (a b : ℤ) :
    (0 ≤ a → 0 ≤ Int.tmod a b) ∧ (a ≤ 0 → Int.tmod a b ≤ 0) := by
  constructor
  · exact fun ha => Int.tmod_nonneg b ha
  · intro ha
    have hrw : Int.tmod a b = -Int.tmod (-a) b := by
      have := tmod_neg_left (-a) b
      simpa using this
    have h0 : (0:ℤ) ≤ -a := by omega
    have := Int.tmod_nonneg b h0
    omega

/-- The truncating remainder by 256 agrees with the Euclidean remainder up to
one shift of 256. -/
theorem tmod_256_cases (a : ℤ) :
    Int.tmod a 256 = a % 256 ∨ Int.tmod a 256 = a % 256 - 256 := by
  rcases le_or_lt 0 a with ha | ha
  · left
    exact Int.tmod_eq_emod ha (by norm_num)
  · have hrw : Int.tmod a 256 = -Int.tmod (-a) 256 := by
      have := tmod_neg_left (-a) 256
      simpa using this
    have h0 : (0:ℤ) ≤ -a := by omega
    rw [hrw, Int.tmod_eq_emod h0 (by norm_num)]
    omega

end TmodFacts

section EncoderFacts

/-- One consumption step conserves raw ticks: the new accumulator plus four
times the emitted steps recovers the old accumulator plus the delta. -/
theorem consumeEncoderDelta_conserves (acc delta : ℤ) :
    acc + delta = 4 * (consumeEncoderDelta acc delta).1 + (consumeEncoderDelta acc delta).2 := by
  unfold consumeEncoderDelta
  split
  · omega
  · dsimp only
    split
    · have := Int.tdiv_add_tmod (acc + delta) 4
      dsimp only
      omega
    · simp

/-- One consumption step keeps the accumulator strictly below one detent. -/
theorem consumeEncoderDelta_bound (acc delta : ℤ) (h : acc.natAbs < 4) :
    ((consumeEncoderDelta acc delta).2).natAbs < 4 := by
  unfold consumeEncoderDelta
  split
  · simpa using h
  · dsimp only
    split
    · have hb := tmod_bounds (acc + delta) (b := 4) (by norm_num)
      dsimp only
      omega
    · next h4 =>
      rw [not_le, abs_lt] at h4
      dsimp only
      omega

/-- Conservation for a whole delta sequence, from any starting accumulator. -/
theorem consumeEncoderDeltas_conserves (ds : List ℤ) :
    ∀ acc : ℤ, acc + ds.sum =
      4 * (consumeEncoderDeltas acc ds).1 + (consumeEncoderDeltas acc ds).2 := by
  induction ds with
  | nil => intro acc; simp [consumeEncoderDeltas]
  | cons d ds ih =>
    intro acc
    have h1 := consumeEncoderDelta_conserves acc d
    have h2 := ih (consumeEncoderDelta acc d).2
    simp only [consumeEncoderDeltas, List.sum_cons]
    omega

/-- The accumulator bound is preserved along a whole delta sequence. -/
theorem consumeEncoderDeltas_bound (ds : List ℤ) :
    ∀ acc : ℤ, acc.natAbs < 4 → ((consumeEncoderDeltas acc ds).2).natAbs < 4 := by
  induction ds with
  | nil => intro acc h; simpa [consumeEncoderDeltas] using h
  | cons d ds ih =>
    intro acc h
    exact ih _ (consumeEncoderDelta_bound acc d h)

end EncoderFacts

/-- Claim C4: for every sequence of raw rotary deltas fed to the input
classifier, the sum of the deltas equals DETENT (4) times the total emitted
StepAdjust steps plus the final accumulator; the retained accumulator stays
strictly below one detent in magnitude, and any retained remainder carries
the sign of the accumulated value it was truncated from (C division
truncating toward zero). -/
theorem encoder_accumulator_conservation :
    (∀ ds : List ℤ,
      ds.sum = 4 * (consumeEncoderDeltas 0 ds).1 + (consumeEncoderDeltas 0 ds).2 ∧
      ((consumeEncoderDeltas 0 ds).2).natAbs < 4) ∧
    (∀ acc delta : ℤ,
      (0 ≤ acc + delta → 0 ≤ (consumeEncoderDelta acc delta).2) ∧
      (acc + delta ≤ 0 → (consumeEncoderDelta acc delta).2 ≤ 0)) := by
  constructor
  · intro ds
    refine ⟨?_, consumeEncoderDeltas_bound ds 0 (by norm_num)⟩
    have := consumeEncoderDeltas_conserves ds 0
    omega
  · intro acc delta
    unfold consumeEncoderDelta
    split
    · next h => subst h; constructor <;> intro h <;> simpa using h
    · dsimp only
      split
      · have := tmod_sign (acc + delta) 4
        simpa using this
      · constructor <;> intro h <;> simpa using h

/-- Witness for C4 at a concrete delta burst and a concrete sign case. -/
theorem encoder_accumulator_conservation_witness :
    ([5, -3, 10].sum = 4 * (consumeEncoderDeltas 0 [5, -3, 10]).1 +
        (consumeEncoderDeltas 0 [5, -3, 10]).2 ∧
      ((consumeEncoderDeltas 0 [5, -3, 10]).2).natAbs < 4) ∧
    (0 : ℤ) ≤ 2 + 5 ∧ 0 ≤ (consumeEncoderDelta 2 5).2 :=
  ⟨encoder_accumulator_conservation.1 [5, -3, 10],
   by decide,
   (encoder_accumulator_conservation.2 2 5).1 (by decide)⟩

/-- Claim C10: a POST with a missing body, unparseable JSON, or no
"setpoint" field to any of the three temperature-setting endpoints
returns HTTP 400, leaves the whole program state untouched, and issues no
FreeSleep request. -/
theorem api_bad_body_atomicity :
    ∀ s : DialState,
      handleAPISetTemperature s .missing = (400, s, []) ∧
      handleAPISetTemperature s .badJson = (400, s, []) ∧
      handleAPISetTemperature s .noSetpoint = (400, s, []) ∧
      handleAPISetBedTemperature s .missing = (400, s, []) ∧
      handleAPISetBedTemperature s .badJson = (400, s, []) ∧
      handleAPISetBedTemperature s .noSetpoint = (400, s, []) ∧
      handleAPISetPillowTemperature s .missing = (400, s, []) ∧
      handleAPISetPillowTemperature s .badJson = (400, s, []) ∧
      handleAPISetPillowTemperature s .noSetpoint = (400, s, []) :=
  fun _ => ⟨rfl, rfl, rfl, rfl, rfl, rfl, rfl, rfl, rfl⟩

section IPEditorFacts

/-- The two-`if` normalization in handleEncoderInIPEditor computes exactly the
mathematical (Euclidean) remainder modulo 256, for any starting octet. -/
theorem ipOctetAdjust_emod (v : ℕ) (n : ℤ) :
    (ipOctetAdjust v n : ℤ) = ((v : ℤ) + n) % 256 := by
  have h1 := tmod_256_cases ((v : ℤ) + n)
  have h2 := tmod_256_cases (256 + Int.tmod ((v : ℤ) + n) 256)
  have hb1 := tmod_bounds ((v : ℤ) + n) (b := 256) (by norm_num)
  have hs1 := tmod_sign ((v : ℤ) + n) 256
  have hb2 := tmod_bounds (256 + Int.tmod ((v : ℤ) + n) 256) (b := 256) (by norm_num)
  unfold ipOctetAdjust
  dsimp only
  split <;> split <;> omega

/-- The IP editor's per-delta handler factors through the shared encoder
consumption logic: the octet is adjusted by the emitted steps and the
accumulator follows `consumeEncoderDelta`. -/
theorem handleEncoderInIPEditor_eq (v : ℕ) (acc delta : ℤ) (hv : v < 256) :
    handleEncoderInIPEditor v acc delta =
      (ipOctetAdjust v (consumeEncoderDelta acc delta).1, (consumeEncoderDelta acc delta).2) := by
  have h0 := ipOctetAdjust_emod v 0
  unfold handleEncoderInIPEditor consumeEncoderDelta
  split
  · dsimp only
    simp only [Prod.mk.injEq]
    exact ⟨by omega, trivial⟩
  · dsimp only
    split
    · rfl
    · simp only [Prod.mk.injEq]
      exact ⟨by omega, trivial⟩

/-- Running the IP editor over any delta sequence: the final octet is the
start octet plus the total emitted steps, modulo 256, and the accumulator is
the shared fold's accumulator. -/
theorem runIPEditor_spec (ds : List ℤ) :
    ∀ (v : ℕ) (acc : ℤ), v < 256 →
      runIPEditor v acc ds =
        ((((v : ℤ) + (consumeEncoderDeltas acc ds).1) % 256).toNat,
         (consumeEncoderDeltas acc ds).2) := by
  induction ds with
  | nil =>
    intro v acc hv
    simp only [runIPEditor, consumeEncoderDeltas, Prod.mk.injEq]
    exact ⟨by omega, trivial⟩
  | cons d ds ih =>
    intro v acc hv
    have hlt : ipOctetAdjust v (consumeEncoderDelta acc d).1 < 256 := by
      have := ipOctetAdjust_emod v (consumeEncoderDelta acc d).1
      omega
    have hoct := ipOctetAdjust_emod v (consumeEncoderDelta acc d).1
    simp only [runIPEditor, handleEncoderInIPEditor_eq v acc d hv, consumeEncoderDeltas]
    rw [ih _ _ hlt]
    simp only [Prod.mk.injEq]
    exact ⟨by omega, trivial⟩

end IPEditorFacts

/-- Claim C9: in the IP editor, each consumed step count `n` sends the edited
octet `v` to `(v + n) mod 256`, normalized into [0, 255]; in particular any
burst of raw deltas totaling +300 ticks (75 detents) applied from a clean
accumulator to an octet holding 1 leaves it at 76. -/
theorem ip_octet_wraparound :
    (∀ (v : ℕ) (n : ℤ), (ipOctetAdjust v n : ℤ) = ((v : ℤ) + n) % 256) ∧
    (∀ ds : List ℤ, ds.sum = 300 → runIPEditor 1 0 ds = (76, 0)) := by
  refine ⟨ipOctetAdjust_emod, ?_⟩
  intro ds hsum
  have hcons := consumeEncoderDeltas_conserves ds 0
  have hbound := consumeEncoderDeltas_bound ds 0 (by norm_num)
  rw [runIPEditor_spec ds 1 0 (by norm_num)]
  have hS : (consumeEncoderDeltas 0 ds).1 = 75 ∧ (consumeEncoderDeltas 0 ds).2 = 0 := by
    omega
  rw [hS.1, hS.2]
  rfl

/-- Witness for C9 at the concrete burst `[300]`. -/
theorem ip_octet_wraparound_witness : runIPEditor 1 0 [300] = (76, 0) :=
  ip_octet_wraparound.2 [300] (by decide)

section SyncFrameFacts

/-- The bed merge step never touches the backoff counters. -/
theorem syncMergeBed_frame (s : DialState) (f : Fetch) (a : Bool) :
    (syncMergeBed s f a).consecutiveFailures = s.consecutiveFailures ∧
    (syncMergeBed s f a).currentSyncInterval = s.currentSyncInterval := by
  unfold syncMergeBed
  rcases f with _ | ⟨tf, io⟩
  · exact ⟨rfl, rfl⟩
  · dsimp only
    split_ifs <;> exact ⟨rfl, rfl⟩

/-- The pillow merge step never touches the backoff counters. -/
theorem syncMergePillow_frame (s : DialState) (f : Fetch) (a : Bool) :
    (syncMergePillow s f a).consecutiveFailures = s.consecutiveFailures ∧
    (syncMergePillow s f a).currentSyncInterval = s.currentSyncInterval := by
  unfold syncMergePillow
  rcases f with _ | ⟨tf, io⟩
  · exact ⟨rfl, rfl⟩
  · dsimp only
    split_ifs <;> exact ⟨rfl, rfl⟩

end SyncFrameFacts

/-- Claim C3: a fully failed poll cycle doubles the interval (capped at
MAX_SYNC_INTERVAL_MS) and counts the failure; a cycle with at least one
successful zone fetch resets the interval to FREESLEEP_SYNC_INTERVAL_MS and
the counter to zero (in every state satisfying the reachable-state invariant
that a zero counter comes with the base interval); starting from the initial
state, five fully failed cycles run at intervals 2000, 4000, 8000, 16000,
32000 ms, the interval after the fifth failure is capped at 60000 ms, and any
success returns it to 2000 ms. -/
theorem poll_backoff_doubling_and_reset :
    (∀ (s : DialState) (now : ℕ),
      (syncFromFreeSleep s none none now).1.currentSyncInterval
          = min (s.currentSyncInterval * 2) MAX_SYNC_INTERVAL_MS ∧
      (syncFromFreeSleep s none none now).1.consecutiveFailures
          = s.consecutiveFailures + 1) ∧
    (∀ (s : DialState) (bf pf : Fetch) (now : ℕ),
      (s.consecutiveFailures = 0 → s.currentSyncInterval = FREESLEEP_SYNC_INTERVAL_MS) →
      (bf.isSome = true ∨ pf.isSome = true) →
      (syncFromFreeSleep s bf pf now).1.currentSyncInterval = FREESLEEP_SYNC_INTERVAL_MS ∧
      (syncFromFreeSleep s bf pf now).1.consecutiveFailures = 0) ∧
    ((pollFailCycle^[0] initialState).currentSyncInterval = 2000 ∧
     (pollFailCycle^[1] initialState).currentSyncInterval = 4000 ∧
     (pollFailCycle^[2] initialState).currentSyncInterval = 8000 ∧
     (pollFailCycle^[3] initialState).currentSyncInterval = 16000 ∧
     (pollFailCycle^[4] initialState).currentSyncInterval = 32000 ∧
     (pollFailCycle^[5] initialState).currentSyncInterval = 60000 ∧
     (pollFailCycle^[5] initialState).consecutiveFailures = 5 ∧
     (syncFromFreeSleep (pollFailCycle^[5] initialState) (some (70, true)) none 0).1.currentSyncInterval = 2000 ∧
     (syncFromFreeSleep (pollFailCycle^[5] initialState) (some (70, true)) none 0).1.consecutiveFailures = 0) := by
  refine ⟨?_, ?_, ?_⟩
  · intro s now
    simp [syncFromFreeSleep, syncMergeBed, syncMergePillow, syncApplyBackoff]
  · intro s bf pf now hinv hsucc
    have hany : (bf.isSome || pf.isSome) = true := by
      rcases hsucc with h | h <;> simp [h]
    unfold syncFromFreeSleep
    dsimp only
    rw [hany]
    generalize (decide (SYNC_COOLDOWN_AFTER_CHANGE_MS < now - s.lastSetpointChangeTime)) = a
    generalize hS : syncMergePillow (syncMergeBed s bf a) pf a = s2
    have hfail : s2.consecutiveFailures = s.consecutiveFailures := by
      rw [← hS, (syncMergePillow_frame _ pf a).1, (syncMergeBed_frame s bf a).1]
    have hint : s2.currentSyncInterval = s.currentSyncInterval := by
      rw [← hS, (syncMergePillow_frame _ pf a).2, (syncMergeBed_frame s bf a).2]
    unfold syncApplyBackoff
    simp only [if_true]
    split_ifs with h0
    · exact ⟨rfl, rfl⟩
    · have hz : s.consecutiveFailures = 0 := by omega
      exact ⟨by rw [hint, hinv hz], by omega⟩
  · refine ⟨by decide, by decide, by decide, by decide, by decide, by decide, by decide, ?_, ?_⟩ <;>
      decide

/-- Witness for C3's reset clause at a concrete backed-off state. -/
theorem poll_backoff_doubling_and_reset_witness :
    (syncFromFreeSleep { initialState with consecutiveFailures := 1, currentSyncInterval := 4000 }
        (some (70, true)) none 0).1.currentSyncInterval = FREESLEEP_SYNC_INTERVAL_MS ∧
    (syncFromFreeSleep { initialState with consecutiveFailures := 1, currentSyncInterval := 4000 }
        (some (70, true)) none 0).1.consecutiveFailures = 0 :=
  poll_backoff_doubling_and_reset.2.1
    { initialState with consecutiveFailures := 1, currentSyncInterval := 4000 }
    (some (70, true)) none 0 (by decide) (Or.inl rfl)

section SyncMergeFacts

/-- The backoff step never touches zone temperatures or power flags. -/
theorem syncApplyBackoff_zone_frame (s : DialState) (b : Bool) :
    (syncApplyBackoff s b).bedSetpoint = s.bedSetpoint ∧
    (syncApplyBackoff s b).bedPowerOn = s.bedPowerOn ∧
    (syncApplyBackoff s b).pillowSetpoint = s.pillowSetpoint ∧
    (syncApplyBackoff s b).pillowPowerOn = s.pillowPowerOn := by
  unfold syncApplyBackoff
  split_ifs <;> exact ⟨rfl, rfl, rfl, rfl⟩

/-- The pillow merge step never touches the bed zone. -/
theorem syncMergePillow_bed_frame (s : DialState) (f : Fetch) (a : Bool) :
    (syncMergePillow s f a).bedSetpoint = s.bedSetpoint ∧
    (syncMergePillow s f a).bedPowerOn = s.bedPowerOn := by
  unfold syncMergePillow
  rcases f with _ | ⟨tf, io⟩
  · exact ⟨rfl, rfl⟩
  · dsimp only
    split_ifs <;> exact ⟨rfl, rfl⟩

/-- The bed merge step never touches the pillow zone. -/
theorem syncMergeBed_pillow_frame (s : DialState) (f : Fetch) (a : Bool) :
    (syncMergeBed s f a).pillowSetpoint = s.pillowSetpoint ∧
    (syncMergeBed s f a).pillowPowerOn = s.pillowPowerOn := by
  unfold syncMergeBed
  rcases f with _ | ⟨tf, io⟩
  · exact ⟨rfl, rfl⟩
  · dsimp only
    split_ifs <;> exact ⟨rfl, rfl⟩

/-- On a successful bed fetch the merge takes the power state over
unconditionally and the temperature exactly under cooldown-and-noise. -/
theorem syncMergeBed_spec (s : DialState) (tf : ℚ) (io : Bool) (a : Bool) :
    (syncMergeBed s (some (tf, io)) a).bedPowerOn = io ∧
    (syncMergeBed s (some (tf, io)) a).bedSetpoint =
      (if a = true ∧ 1/10 < |s.bedSetpoint - fahrenheitToCelsius tf|
       then fahrenheitToCelsius tf else s.bedSetpoint) := by
  unfold syncMergeBed
  dsimp only
  split_ifs <;> simp_all

/-- On a successful pillow fetch the merge takes the power state over
unconditionally and the temperature exactly under cooldown-and-noise. -/
theorem syncMergePillow_spec (s : DialState) (tf : ℚ) (io : Bool) (a : Bool) :
    (syncMergePillow s (some (tf, io)) a).pillowPowerOn = io ∧
    (syncMergePillow s (some (tf, io)) a).pillowSetpoint =
      (if a = true ∧ 1/10 < |s.pillowSetpoint - fahrenheitToCelsius tf|
       then fahrenheitToCelsius tf else s.pillowSetpoint) := by
  unfold syncMergePillow
  dsimp only
  split_ifs <;> simp_all

/-- Full poll-cycle behaviour of the bed zone on a successful bed fetch. -/
theorem syncFromFreeSleep_bed (s : DialState) (tf : ℚ) (io : Bool) (pf : Fetch) (now : ℕ) :
    (syncFromFreeSleep s (some (tf, io)) pf now).1.bedPowerOn = io ∧
    (syncFromFreeSleep s (some (tf, io)) pf now).1.bedSetpoint =
      (if SYNC_COOLDOWN_AFTER_CHANGE_MS < now - s.lastSetpointChangeTime ∧
          1/10 < |s.bedSetpoint - fahrenheitToCelsius tf|
       then fahrenheitToCelsius tf else s.bedSetpoint) := by
  unfold syncFromFreeSleep
  dsimp only
  set a := decide (SYNC_COOLDOWN_AFTER_CHANGE_MS < now - s.lastSetpointChangeTime) with ha
  obtain ⟨hps, hpp⟩ := syncMergePillow_bed_frame (syncMergeBed s (some (tf, io)) a) pf a
  obtain ⟨hmp, hms⟩ := syncMergeBed_spec s tf io a
  obtain ⟨hb1, hb2, hb3, hb4⟩ :=
    syncApplyBackoff_zone_frame (syncMergePillow (syncMergeBed s (some (tf, io)) a) pf a)
      ((some (tf, io)).isSome || pf.isSome)
  refine ⟨by rw [hb2, hpp, hmp], ?_⟩
  rw [hb1, hps, hms, ha]
  simp only [decide_eq_true_eq]

/-- Full poll-cycle behaviour of the pillow zone on a successful pillow
fetch (the cooldown is computed from the pre-cycle state, and the bed merge
does not touch the pillow zone). -/
theorem syncFromFreeSleep_pillow (s : DialState) (bf : Fetch) (tf : ℚ) (io : Bool) (now : ℕ) :
    (syncFromFreeSleep s bf (some (tf, io)) now).1.pillowPowerOn = io ∧
    (syncFromFreeSleep s bf (some (tf, io)) now).1.pillowSetpoint =
      (if SYNC_COOLDOWN_AFTER_CHANGE_MS < now - s.lastSetpointChangeTime ∧
          1/10 < |s.pillowSetpoint - fahrenheitToCelsius tf|
       then fahrenheitToCelsius tf else s.pillowSetpoint) := by
  unfold syncFromFreeSleep
  dsimp only
  set a := decide (SYNC_COOLDOWN_AFTER_CHANGE_MS < now - s.lastSetpointChangeTime) with ha
  obtain ⟨hbs, hbp⟩ := syncMergeBed_pillow_frame s bf a
  obtain ⟨hmp, hms⟩ := syncMergePillow_spec (syncMergeBed s bf a) tf io a
  obtain ⟨hb1, hb2, hb3, hb4⟩ :=
    syncApplyBackoff_zone_frame (syncMergePillow (syncMergeBed s bf a) (some (tf, io)) a)
      (bf.isSome || (some (tf, io)).isSome)
  refine ⟨by rw [hb4, hmp], ?_⟩
  rw [hb3, hms, hbs, ha]
  simp only [decide_eq_true_eq]

end SyncMergeFacts

/-- Claim C2: on each poll cycle, each zone with a successful fetch takes the
fetched power state unconditionally, and takes the fetched temperature exactly
when more than SYNC_COOLDOWN_AFTER_CHANGE_MS (1000 ms) have elapsed since the
last local edit and the local/remote difference exceeds 0.1 degC; in
particular, with the bed set to 25 degC at t = 0, a poll at t = 500 ms
reporting 68 degF (20 degC) leaves it at 25, and the same report at
t = 1500 ms moves it to 20. -/
theorem poll_merge_power_unconditional_temp_gated :
    (∀ (s : DialState) (tf : ℚ) (io : Bool) (pf : Fetch) (now : ℕ),
      (syncFromFreeSleep s (some (tf, io)) pf now).1.bedPowerOn = io ∧
      (syncFromFreeSleep s (some (tf, io)) pf now).1.bedSetpoint =
        (if SYNC_COOLDOWN_AFTER_CHANGE_MS < now - s.lastSetpointChangeTime ∧
            1/10 < |s.bedSetpoint - fahrenheitToCelsius tf|
         then fahrenheitToCelsius tf else s.bedSetpoint)) ∧
    (∀ (s : DialState) (bf : Fetch) (tf : ℚ) (io : Bool) (now : ℕ),
      (syncFromFreeSleep s bf (some (tf, io)) now).1.pillowPowerOn = io ∧
      (syncFromFreeSleep s bf (some (tf, io)) now).1.pillowSetpoint =
        (if SYNC_COOLDOWN_AFTER_CHANGE_MS < now - s.lastSetpointChangeTime ∧
            1/10 < |s.pillowSetpoint - fahrenheitToCelsius tf|
         then fahrenheitToCelsius tf else s.pillowSetpoint)) ∧
    ((syncFromFreeSleep { initialState with bedSetpoint := 25 }
        (some (68, true)) none 500).1.bedSetpoint = 25 ∧
     (syncFromFreeSleep { initialState with bedSetpoint := 25 }
        (some (68, true)) none 1500).1.bedSetpoint = 20) := by
  refine ⟨syncFromFreeSleep_bed, syncFromFreeSleep_pillow, ?_, ?_⟩
  · rw [(syncFromFreeSleep_bed { initialState with bedSetpoint := 25 } 68 true none 500).2]
    norm_num [initialState, SYNC_COOLDOWN_AFTER_CHANGE_MS]
  · rw [(syncFromFreeSleep_bed { initialState with bedSetpoint := 25 } 68 true none 1500).2]
    rw [if_pos]
    · norm_num [fahrenheitToCelsius]
    · constructor
      · norm_num [initialState, SYNC_COOLDOWN_AFTER_CHANGE_MS]
      · norm_num [initialState, fahrenheitToCelsius]

/-- Counterexample for C5: a POST to /api/temperature writes the active
setpoint (21 to 30 degC) yet leaves pendingFreeSleepUpdate false and
lastSetpointChangeTime untouched, so this write is never pushed. -/
theorem api_write_does_not_arm_push :
    (applyOp { initialState with lastSetpointChangeTime := 7 }
        (.apiSetTemperature (.withSetpoint 30))).1.pendingFreeSleepUpdate = false ∧
    (applyOp { initialState with lastSetpointChangeTime := 7 }
        (.apiSetTemperature (.withSetpoint 30))).1.lastSetpointChangeTime = 7 ∧
    (applyOp { initialState with lastSetpointChangeTime := 7 }
        (.apiSetTemperature (.withSetpoint 30))).1.bedSetpoint = 30 ∧
    (applyOp { initialState with lastSetpointChangeTime := 7 }
        (.apiSetTemperature (.withSetpoint 30))).2 = [] := by
  norm_num [applyOp, handleAPISetTemperature, setActiveSetpoint, clampTemp, initialState,
    TEMP_MIN, TEMP_MAX]

/-- Claim C5 as amended: the on-device edit paths (rotary steps that change
the value, arc touches, reset-to-default) arm the debounced push by setting
pendingFreeSleepUpdate and lastSetpointChangeTime; the control surface's set
handlers do not: /api/temperature neither arms nor pushes, and /api/bed and
/api/pillow bypass the debounce entirely with one immediate request. -/
theorem edit_paths_arm_push_api_paths_do_not :
    (∀ (s : DialState) (angle : ℚ) (now : ℕ),
      ((handleTouchArc s angle now).pendingFreeSleepUpdate,
       (handleTouchArc s angle now).lastSetpointChangeTime) =
        if (arcAngleToTemp angle).isSome = true then (true, now)
        else (s.pendingFreeSleepUpdate, s.lastSetpointChangeTime)) ∧
    (∀ (s : DialState) (now : ℕ),
      (resetToDefault s now).pendingFreeSleepUpdate = true ∧
      (resetToDefault s now).lastSetpointChangeTime = now) ∧
    (∀ (s : DialState) (delta : ℤ) (now : ℕ),
      ((handleEncoderInput s delta now).pendingFreeSleepUpdate,
       (handleEncoderInput s delta now).lastSetpointChangeTime) =
        if delta ≠ 0 ∧ 4 ≤ |s.encoderAccumulator + delta| ∧
           roundToDisplay s.useFahrenheit
             (clampTemp (getActiveSetpoint s +
               Int.tdiv (s.encoderAccumulator + delta) 4 * encoderStepSize s.useFahrenheit))
             ≠ getActiveSetpoint s
        then (true, now)
        else (s.pendingFreeSleepUpdate, s.lastSetpointChangeTime)) ∧
    (∀ (s : DialState) (t : ℚ),
      (handleAPISetTemperature s (.withSetpoint t)).2.1.pendingFreeSleepUpdate
          = s.pendingFreeSleepUpdate ∧
      (handleAPISetTemperature s (.withSetpoint t)).2.1.lastSetpointChangeTime
          = s.lastSetpointChangeTime ∧
      (handleAPISetTemperature s (.withSetpoint t)).2.2 = []) ∧
    (∀ (s : DialState) (t : ℚ),
      (handleAPISetBedTemperature s (.withSetpoint t)).2.1.pendingFreeSleepUpdate
          = s.pendingFreeSleepUpdate ∧
      (handleAPISetBedTemperature s (.withSetpoint t)).2.1.lastSetpointChangeTime
          = s.lastSetpointChangeTime ∧
      (handleAPISetBedTemperature s (.withSetpoint t)).2.2
          = [setFreeSleepTemperature .bed .left (clampTemp t)]) ∧
    (∀ (s : DialState) (t : ℚ),
      (handleAPISetPillowTemperature s (.withSetpoint t)).2.1.pendingFreeSleepUpdate
          = s.pendingFreeSleepUpdate ∧
      (handleAPISetPillowTemperature s (.withSetpoint t)).2.1.lastSetpointChangeTime
          = s.lastSetpointChangeTime ∧
      (handleAPISetPillowTemperature s (.withSetpoint t)).2.2
          = [setFreeSleepTemperature .pillow .right (clampTemp t)]) := by
  refine ⟨?_, ?_, ?_, ?_, ?_, ?_⟩
  · intro s angle now
    unfold handleTouchArc arcAngleToTemp setActiveSetpoint
    split_ifs <;> simp_all
  · intro s now
    unfold resetToDefault setActiveSetpoint
    split_ifs <;> exact ⟨rfl, rfl⟩
  · intro s delta now
    unfold handleEncoderInput rotaryTempAdjust setActiveSetpoint getActiveSetpoint
    dsimp only
    split_ifs <;> simp_all
  · intro s t
    unfold handleAPISetTemperature setActiveSetpoint
    split_ifs <;> exact ⟨rfl, rfl, rfl⟩
  · intro s t
    exact ⟨rfl, rfl, rfl⟩
  · intro s t
    exact ⟨rfl, rfl, rfl⟩

/-- Counterexample for C6: the bed zone is edited (25 degC, t = 0), the
active-zone selector is toggled to pillow before the debounce deadline, and
the flush at t = 500 pushes the PILLOW setpoint (21 degC = 70 degF) to the
pillow endpoint instead of the edited bed zone's 25 degC (77 degF). -/
theorem burst_push_follows_selector_not_edited_zone :
    (applyOps initialState [.arcTouch 291 0, .selectZone true, .flushTick 500]).2 =
      [Request.tempPost .pillow .left 70] ∧
    (applyOps initialState [.arcTouch 291 0, .selectZone true, .flushTick 500]).2 ≠
      [Request.tempPost .bed .left 77] := by
  have h : (applyOps initialState [.arcTouch 291 0, .selectZone true, .flushTick 500]).2 =
      [Request.tempPost .pillow .left 70] := by
    norm_num [applyOps, applyOp, handleTouchArc, arcAngleToTemp, mapFloat, clampTemp,
      setActiveSetpoint, loopFlush, setFreeSleepTemperature, celsiusToFahrenheit, cround,
      initialState, TEMP_MIN, TEMP_MAX, TEMP_DEFAULT, FREESLEEP_DEBOUNCE_MS, sideOf]
  exact ⟨h, by rw [h]; simp⟩

/-- Claim C6 as amended: the debounce state is a single global pair, not
per-zone; a scheduler tick flushes exactly when a push is pending and
FREESLEEP_DEBOUNCE_MS (500 ms) have elapsed since the last edit, emitting
exactly one temperature write that carries the setpoint of whichever zone is
active at flush time to that zone's endpoint, and clearing the flag;
otherwise it emits nothing and changes nothing.  Hence a burst of same-zone
edits each within 500 ms of the previous yields exactly one write, at the
first tick 500 ms after the last edit (demonstrated on a three-edit burst
with interleaved ticks). -/
theorem global_debounce_single_flush :
    (∀ (s : DialState) (now : ℕ),
      loopFlush s now =
        if s.pendingFreeSleepUpdate = true ∧
           FREESLEEP_DEBOUNCE_MS ≤ now - s.lastSetpointChangeTime then
          ({ s with pendingFreeSleepUpdate := false },
           [setFreeSleepTemperature (activeZone s) (sideOf s) (getActiveSetpoint s)])
        else (s, [])) ∧
    ((applyOps initialState
        [.arcTouch 291 0, .flushTick 100, .arcTouch 280 100, .flushTick 250,
         .arcTouch 291 200, .flushTick 450, .flushTick 699, .flushTick 700,
         .flushTick 900]).2 = [Request.tempPost .bed .left 77]) := by
  constructor
  · intro s now
    unfold loopFlush activeZone getActiveSetpoint
    split_ifs <;> rfl
  · norm_num [applyOps, applyOp, handleTouchArc, arcAngleToTemp, mapFloat, clampTemp,
      setActiveSetpoint, loopFlush, setFreeSleepTemperature, celsiusToFahrenheit, cround,
      initialState, TEMP_MIN, TEMP_MAX, TEMP_DEFAULT, FREESLEEP_DEBOUNCE_MS, sideOf]

/-- Counterexample for C7: with the bed side configured "right", a POST to
/api/bed still sends side "left" to the bed controller — the per-zone API
handlers hard-code the side key from zone identity and ignore the flag. -/
theorem per_zone_api_ignores_bed_side_flag :
    (applyOp { initialState with bedSideRight := true }
        (.apiSetBedTemperature (.withSetpoint 25))).2 =
      [Request.tempPost .bed .left 77] ∧
    Side.left ≠ sideOf { initialState with bedSideRight := true } := by
  constructor
  · norm_num [applyOp, handleAPISetBedTemperature, clampTemp, setFreeSleepTemperature,
      celsiusToFahrenheit, cround, TEMP_MIN, TEMP_MAX, initialState]
  · simp [sideOf]

/-- Claim C7 as amended: every request an operation issues carries the side
key derived from the bedSideRight flag — independent of which zone is
addressed — except those of the two per-zone control-surface handlers, which
hard-code "left" for /api/bed and "right" for /api/pillow. -/
theorem request_sides_follow_flag_except_per_zone_api :
    ∀ (s : DialState) (op : Op),
      ((applyOp s op).2.map Request.sd).all (fun x => decide (x = expectedSide s op)) = true := by
  intro s op
  cases op <;>
    simp only [applyOp, expectedSide, toggleActivePower, syncTemperaturesFromFreeSleep,
      syncFromFreeSleep, loopFlush, setFreeSleepTemperature, handleAPISetTemperature,
      handleAPISetBedTemperature, handleAPISetPillowTemperature] <;>
    try simp [Request.sd]
  case apiSetTemperature b => cases b <;> simp
  case apiSetBedTemperature b => cases b <;> simp [Request.sd, setFreeSleepTemperature]
  case apiSetPillowTemperature b => cases b <;> simp [Request.sd, setFreeSleepTemperature]
  case togglePower => split_ifs <;> simp [Request.sd]
  case flushTick now => split_ifs <;> simp [Request.sd, setFreeSleepTemperature]

/-- Counterexample for C8: with Fahrenheit mode enabled, an arc touch that
writes 20.5 degC stores 20.5 degC (0.5 degC rounding), not the
whole-degree-Fahrenheit round-trip 185/9 degC (69 degF) the claim requires
for every setpoint write. -/
theorem arc_touch_skips_fahrenheit_rounding :
    (applyOp { initialState with useFahrenheit := true } (.arcTouch (1266/5) 0)).1.bedSetpoint
        = 41/2 ∧
    fahrenheitToCelsius (cround (celsiusToFahrenheit (41/2))) = 185/9 ∧
    (41 : ℚ)/2 ≠ 185/9 := by
  refine ⟨?_, by norm_num [fahrenheitToCelsius, celsiusToFahrenheit, cround], by norm_num⟩
  norm_num [applyOp, handleTouchArc, arcAngleToTemp, mapFloat, clampTemp, cround,
    setActiveSetpoint, initialState, TEMP_MIN, TEMP_MAX]

/-- Claim C8 as amended: only the rotary path applies the
whole-degree-Fahrenheit round-trip when the secondary unit is enabled (its
stored value is always `roundToDisplay useFahrenheit` of the clamped target,
which in Fahrenheit mode is convert-round-convert-back); the arc-touch path
rounds to the nearest 0.5 degC regardless of the unit; the control-surface
writes store the clamped value unrounded.  Celsius remains the sole stored
representation throughout.  One upward rotary detent from 21 degC in
Fahrenheit mode stores 195/9 degC (71 degF), not the spec's 21.11. -/
theorem write_path_rounding_characterization :
    (∀ (s : DialState) (steps : ℤ) (now : ℕ),
      getActiveSetpoint (rotaryTempAdjust s steps now) =
        roundToDisplay s.useFahrenheit
          (clampTemp (getActiveSetpoint s + steps * encoderStepSize s.useFahrenheit))) ∧
    (∀ t : ℚ, roundToDisplay true t = fahrenheitToCelsius (cround (celsiusToFahrenheit t))) ∧
    (∀ (s : DialState) (angle : ℚ) (now : ℕ),
      getActiveSetpoint (handleTouchArc s angle now) =
        match arcAngleToTemp angle with
        | none => getActiveSetpoint s
        | some v => (cround (clampTemp v * 2) : ℚ) / 2) ∧
    (∀ (s : DialState) (t : ℚ),
      getActiveSetpoint (handleAPISetTemperature s (.withSetpoint t)).2.1 = clampTemp t ∧
      (handleAPISetBedTemperature s (.withSetpoint t)).2.1.bedSetpoint = clampTemp t ∧
      (handleAPISetPillowTemperature s (.withSetpoint t)).2.1.pillowSetpoint = clampTemp t) ∧
    getActiveSetpoint
        (handleEncoderInput { initialState with useFahrenheit := true } 4 0) = 195/9 := by
  refine ⟨?_, fun t => rfl, ?_, ?_, ?_⟩
  · intro s steps now
    unfold rotaryTempAdjust
    dsimp only
    split_ifs with h
    · cases hsp : s.pillowModeActive <;>
        simp [getActiveSetpoint, setActiveSetpoint, hsp]
    · push_neg at h
      exact h.symm
  · intro s angle now
    unfold handleTouchArc
    cases harc : arcAngleToTemp angle
    · rfl
    · cases hsp : s.pillowModeActive <;>
        simp [getActiveSetpoint, setActiveSetpoint, hsp]
  · intro s t
    refine ⟨?_, rfl, rfl⟩
    cases hsp : s.pillowModeActive <;>
      simp [handleAPISetTemperature, getActiveSetpoint, setActiveSetpoint, hsp]
  · norm_num [handleEncoderInput, rotaryTempAdjust, roundToDisplay, encoderStepSize,
      clampTemp, getActiveSetpoint, setActiveSetpoint, celsiusToFahrenheit,
      fahrenheitToCelsius, cround, initialState, TEMP_MIN, TEMP_MAX, TEMP_DEFAULT]

section RangeFacts

/-- The clamp always lands in [TEMP_MIN, TEMP_MAX]. -/
theorem clampTemp_range (t : ℚ) : TEMP_MIN ≤ clampTemp t ∧ clampTemp t ≤ TEMP_MAX := by
  unfold clampTemp TEMP_MIN TEMP_MAX
  split_ifs <;> constructor <;> linarith

/-- C rounding of a nonnegative value between two integer bounds stays
between those bounds. -/
theorem cround_bounds (x : ℚ) (m n : ℤ) (h0 : 0 ≤ x) (hm : (m : ℚ) ≤ x) (hn : x ≤ (n : ℚ)) :
    (m : ℚ) ≤ (cround x : ℚ) ∧ (cround x : ℚ) ≤ (n : ℚ) := by
  unfold cround
  rw [if_neg (not_lt.mpr h0)]
  constructor
  · have h : m ≤ ⌊x + 1/2⌋ := Int.le_floor.mpr (by linarith)
    exact_mod_cast h
  · have h1 : ⌊x + 1/2⌋ ≤ ⌊(n : ℚ) + 1/2⌋ := Int.floor_le_floor (by linarith)
    have h2 : ⌊(n : ℚ) + 1/2⌋ = n := by
      rw [Int.floor_int_add]
      norm_num
    rw [h2] at h1
    exact_mod_cast h1

/-- Both display roundings keep an in-range temperature in range (the range
endpoints are whole degrees in both units). -/
theorem roundToDisplay_range (u : Bool) (t : ℚ) (h1 : TEMP_MIN ≤ t) (h2 : t ≤ TEMP_MAX) :
    TEMP_MIN ≤ roundToDisplay u t ∧ roundToDisplay u t ≤ TEMP_MAX := by
  unfold TEMP_MIN TEMP_MAX at *
  cases u
  · show (10 : ℚ) ≤ (cround (t * 2) : ℚ) / 2 ∧ (cround (t * 2) : ℚ) / 2 ≤ 35
    have hb := cround_bounds (t * 2) 20 70 (by linarith) (by push_cast; linarith)
      (by push_cast; linarith)
    push_cast at hb
    constructor <;> linarith [hb.1, hb.2]
  · show (10 : ℚ) ≤ fahrenheitToCelsius (cround (celsiusToFahrenheit t)) ∧
      fahrenheitToCelsius (cround (celsiusToFahrenheit t)) ≤ 35
    unfold celsiusToFahrenheit fahrenheitToCelsius
    have hb := cround_bounds (t * 9 / 5 + 32) 50 95 (by linarith) (by push_cast; linarith)
      (by push_cast; linarith)
    push_cast at hb
    constructor <;> linarith [hb.1, hb.2]

/-- The value every rotary/arc write stores is in range. -/
theorem newTemp_range (u : Bool) (x : ℚ) :
    TEMP_MIN ≤ roundToDisplay u (clampTemp x) ∧ roundToDisplay u (clampTemp x) ≤ TEMP_MAX :=
  roundToDisplay_range u (clampTemp x) (clampTemp_range x).1 (clampTemp_range x).2

/-- Writing an in-range value through the active-setpoint reference keeps the
invariant. -/
theorem rangeInv_setActive (s : DialState) (t : ℚ) (hs : rangeInv s)
    (h1 : TEMP_MIN ≤ t) (h2 : t ≤ TEMP_MAX) : rangeInv (setActiveSetpoint s t) := by
  obtain ⟨a1, a2, a3, a4⟩ := hs
  unfold setActiveSetpoint
  split_ifs
  · exact ⟨a1, a2, h1, h2⟩
  · exact ⟨h1, h2, a3, a4⟩

/-- The edit-path write (value plus sync bookkeeping) keeps the invariant. -/
theorem rangeInv_write (s : DialState) (t : ℚ) (now : ℕ) (hs : rangeInv s)
    (h1 : TEMP_MIN ≤ t) (h2 : t ≤ TEMP_MAX) :
    rangeInv { setActiveSetpoint s t with
      lastSetpointChangeTime := now, pendingFreeSleepUpdate := true } := by
  obtain ⟨a1, a2, a3, a4⟩ := rangeInv_setActive s t hs h1 h2
  exact ⟨a1, a2, a3, a4⟩

/-- A failed bed fetch leaves the bed zone untouched over a whole poll
cycle. -/
theorem syncFromFreeSleep_bed_none (s : DialState) (pf : Fetch) (now : ℕ) :
    (syncFromFreeSleep s none pf now).1.bedSetpoint = s.bedSetpoint ∧
    (syncFromFreeSleep s none pf now).1.bedPowerOn = s.bedPowerOn := by
  unfold syncFromFreeSleep
  dsimp only
  generalize (decide (SYNC_COOLDOWN_AFTER_CHANGE_MS < now - s.lastSetpointChangeTime)) = a
  obtain ⟨h1, h2⟩ := syncMergePillow_bed_frame (syncMergeBed s none a) pf a
  obtain ⟨b1, b2, b3, b4⟩ :=
    syncApplyBackoff_zone_frame (syncMergePillow (syncMergeBed s none a) pf a)
      ((none : Fetch).isSome || pf.isSome)
  exact ⟨by rw [b1, h1]; rfl, by rw [b2, h2]; rfl⟩

/-- A failed pillow fetch leaves the pillow zone untouched over a whole poll
cycle. -/
theorem syncFromFreeSleep_pillow_none (s : DialState) (bf : Fetch) (now : ℕ) :
    (syncFromFreeSleep s bf none now).1.pillowSetpoint = s.pillowSetpoint ∧
    (syncFromFreeSleep s bf none now).1.pillowPowerOn = s.pillowPowerOn := by
  unfold syncFromFreeSleep
  dsimp only
  generalize (decide (SYNC_COOLDOWN_AFTER_CHANGE_MS < now - s.lastSetpointChangeTime)) = a
  obtain ⟨h1, h2⟩ := syncMergeBed_pillow_frame s bf a
  obtain ⟨b1, b2, b3, b4⟩ :=
    syncApplyBackoff_zone_frame (syncMergePillow (syncMergeBed s bf a) none a)
      (bf.isSome || (none : Fetch).isSome)
  exact ⟨by rw [b3]; exact h1, by rw [b4]; exact h2⟩

/-- A poll cycle keeps the bed setpoint in range when the fetched value (if
any) converts into range. -/
theorem pollSync_bed_range (s : DialState) (bf pf : Fetch) (now : ℕ)
    (h1 : TEMP_MIN ≤ s.bedSetpoint) (h2 : s.bedSetpoint ≤ TEMP_MAX)
    (hfb : fetchOkB bf = true) :
    TEMP_MIN ≤ (syncFromFreeSleep s bf pf now).1.bedSetpoint ∧
    (syncFromFreeSleep s bf pf now).1.bedSetpoint ≤ TEMP_MAX := by
  rcases bf with _ | ⟨tf, io⟩
  · rw [(syncFromFreeSleep_bed_none s pf now).1]
    exact ⟨h1, h2⟩
  · simp only [fetchOkB, decide_eq_true_eq] at hfb
    rw [(syncFromFreeSleep_bed s tf io pf now).2]
    split_ifs
    · exact hfb
    · exact ⟨h1, h2⟩

/-- A poll cycle keeps the pillow setpoint in range when the fetched value
(if any) converts into range. -/
theorem pollSync_pillow_range (s : DialState) (bf pf : Fetch) (now : ℕ)
    (h1 : TEMP_MIN ≤ s.pillowSetpoint) (h2 : s.pillowSetpoint ≤ TEMP_MAX)
    (hfp : fetchOkB pf = true) :
    TEMP_MIN ≤ (syncFromFreeSleep s bf pf now).1.pillowSetpoint ∧
    (syncFromFreeSleep s bf pf now).1.pillowSetpoint ≤ TEMP_MAX := by
  rcases pf with _ | ⟨tf, io⟩
  · rw [(syncFromFreeSleep_pillow_none s bf now).1]
    exact ⟨h1, h2⟩
  · simp only [fetchOkB, decide_eq_true_eq] at hfp
    rw [(syncFromFreeSleep_pillow s bf tf io now).2]
    split_ifs
    · exact hfp
    · exact ⟨h1, h2⟩

/-- A consumed rotary adjustment preserves the range invariant. -/
theorem rotaryTempAdjust_preserves (s : DialState) (steps : ℤ) (now : ℕ) (hs : rangeInv s) :
    rangeInv (rotaryTempAdjust s steps now) := by
  unfold rotaryTempAdjust
  dsimp only
  split_ifs with hch
  · exact rangeInv_write _ _ _ hs (newTemp_range _ _).1 (newTemp_range _ _).2
  · exact hs

/-- Every single operation preserves the range invariant, assuming any
remote fetch it consumes reports an in-range temperature. -/
theorem applyOp_preserves_range (s : DialState) (op : Op) (hs : rangeInv s)
    (hf : opFetchOk op = true) : rangeInv (applyOp s op).1 := by
  obtain ⟨r1, r2, r3, r4⟩ := hs
  cases op with
  | encoderDelta delta now =>
    dsimp only [applyOp]
    unfold handleEncoderInput
    by_cases h0 : delta = 0
    · rw [if_pos h0]
      exact ⟨r1, r2, r3, r4⟩
    · rw [if_neg h0]
      dsimp only
      by_cases h4 : 4 ≤ |s.encoderAccumulator + delta|
      · rw [if_pos h4]
        exact rotaryTempAdjust_preserves _ _ _ ⟨r1, r2, r3, r4⟩
      · rw [if_neg h4]
        exact ⟨r1, r2, r3, r4⟩
  | resetButton now =>
    exact rangeInv_write _ _ _ ⟨r1, r2, r3, r4⟩ (by norm_num [TEMP_MIN, TEMP_DEFAULT])
      (by norm_num [TEMP_DEFAULT, TEMP_MAX])
  | arcTouch angle now =>
    dsimp only [applyOp]
    unfold handleTouchArc
    cases harc : arcAngleToTemp angle
    · exact ⟨r1, r2, r3, r4⟩
    · exact rangeInv_write _ _ _ ⟨r1, r2, r3, r4⟩ (newTemp_range false _).1 (newTemp_range false _).2
  | apiSetTemperature b =>
    cases b
    case withSetpoint t =>
      exact rangeInv_setActive s _ ⟨r1, r2, r3, r4⟩ (clampTemp_range t).1 (clampTemp_range t).2
    all_goals exact ⟨r1, r2, r3, r4⟩
  | apiSetBedTemperature b =>
    cases b
    case withSetpoint t =>
      exact ⟨(clampTemp_range t).1, (clampTemp_range t).2, r3, r4⟩
    all_goals exact ⟨r1, r2, r3, r4⟩
  | apiSetPillowTemperature b =>
    cases b
    case withSetpoint t =>
      exact ⟨r1, r2, (clampTemp_range t).1, (clampTemp_range t).2⟩
    all_goals exact ⟨r1, r2, r3, r4⟩
  | selectZone b => exact ⟨r1, r2, r3, r4⟩
  | togglePower =>
    dsimp only [applyOp]
    unfold toggleActivePower
    split_ifs <;> exact ⟨r1, r2, r3, r4⟩
  | startupSync bf pf =>
    simp only [opFetchOk, Bool.and_eq_true] at hf
    dsimp only [applyOp]
    unfold syncTemperaturesFromFreeSleep
    dsimp only
    obtain ⟨hfb, hfp⟩ := hf
    rcases bf with _ | ⟨tf, io⟩ <;> rcases pf with _ | ⟨tf2, io2⟩
    · exact ⟨r1, r2, r3, r4⟩
    · simp only [fetchOkB, decide_eq_true_eq] at hfp
      exact ⟨r1, r2, hfp.1, hfp.2⟩
    · simp only [fetchOkB, decide_eq_true_eq] at hfb
      exact ⟨hfb.1, hfb.2, r3, r4⟩
    · simp only [fetchOkB, decide_eq_true_eq] at hfb hfp
      exact ⟨hfb.1, hfb.2, hfp.1, hfp.2⟩
  | pollSync bf pf now =>
    simp only [opFetchOk, Bool.and_eq_true] at hf
    dsimp only [applyOp]
    exact ⟨(pollSync_bed_range s bf pf now r1 r2 hf.1).1,
           (pollSync_bed_range s bf pf now r1 r2 hf.1).2,
           (pollSync_pillow_range s bf pf now r3 r4 hf.2).1,
           (pollSync_pillow_range s bf pf now r3 r4 hf.2).2⟩
  | flushTick now =>
    dsimp only [applyOp]
    unfold loopFlush
    split_ifs <;> exact ⟨r1, r2, r3, r4⟩

end RangeFacts

/-- Counterexample for C1: the remote sync applies fetched temperatures
without clamping, so a poll reporting 150 degF drives the bed setpoint to
590/9 degC (about 65.6 degC), far above TEMP_MAX = 35 degC. -/
theorem setpoint_range_violated_by_remote_sync :
    (applyOp initialState (.pollSync (some (150, true)) none 5000)).1.bedSetpoint = 590/9 ∧
    ¬ (applyOp initialState (.pollSync (some (150, true)) none 5000)).1.bedSetpoint ≤ TEMP_MAX := by
  have h := (syncFromFreeSleep_bed initialState 150 true none 5000).2
  rw [if_pos] at h
  · have hv : (applyOp initialState (.pollSync (some (150, true)) none 5000)).1.bedSetpoint
        = 590/9 := by
      rw [show applyOp initialState (.pollSync (some (150, true)) none 5000) =
          syncFromFreeSleep initialState (some (150, true)) none 5000 from rfl, h]
      norm_num [fahrenheitToCelsius]
    refine ⟨hv, ?_⟩
    rw [hv]
    norm_num [TEMP_MAX]
  · constructor
    · norm_num [initialState, SYNC_COOLDOWN_AFTER_CHANGE_MS]
    · rw [lt_abs]
      right
      norm_num [initialState, fahrenheitToCelsius, TEMP_DEFAULT]

/-- Claim C1 as amended: both setpoints start in range, every local mutation
path (rotary, arc touch, reset, control-surface sets, zone select, power
toggle, push flush) keeps them in [TEMP_MIN, TEMP_MAX], and the remote sync
paths keep them in range provided every successful fetch reports a
temperature whose Celsius conversion lies in [TEMP_MIN, TEMP_MAX]; without
that proviso the sync paths store the fetched value unclamped. -/
theorem setpoint_range_invariant :
    rangeInv initialState ∧
    ∀ (ops : List Op) (s : DialState), rangeInv s → ops.all opFetchOk = true →
      rangeInv (applyOps s ops).1 := by
  refine ⟨by decide, ?_⟩
  intro ops
  induction ops with
  | nil => exact fun s hs _ => hs
  | cons op ops ih =>
    intro s hs hall
    simp only [List.all_cons, Bool.and_eq_true] at hall
    exact ih _ (applyOp_preserves_range s op hs hall.1) hall.2

/-- Witness for C1 (amended) on a concrete operation sequence. -/
theorem setpoint_range_invariant_witness :
    rangeInv (applyOps initialState
      [.resetButton 0, .pollSync none none 1000, .flushTick 1500]).1 :=
  setpoint_range_invariant.2
    [.resetButton 0, .pollSync none none 1000, .flushTick 1500]
    initialState (by decide) (by decide)

end RotaryDial
